import Mathlib

/-!
# Verification of `testable_singleton` (`src/include/singleton.hpp`)

A shallow embedding of the `Singleton<T>` template from
`src/include/singleton.hpp`.  The per-type-parameter global state of
`Singleton<T>` consists of the instance holder `g_instance` (the field
`m_pExtern` together with the static buffer returned by `GetBuffer()`) and
the initialization gate `g_onceFlag` (a resettable `std::once_flag`).

Pointers are modelled as natural numbers: `0` is `nullptr`, `1` is the
sentinel `LOCAL_INSTANCE_ID` (`reinterpret_cast<T*>(1)`), and `bufferAddr`
is the fixed address of the static buffer (`&GetBuffer()`); any other
number may serve as the address of an externally injected object.  The
managed type `T` is modelled by a type `α` of constructor-argument values
together with a predicate saying which argument values make the
constructor throw.  Ghost fields (`ctorCount`, `dtorCount`,
`destroyedAddrs`) count constructor invocations and record every address
on which the holder runs a destructor; they mirror the
constructor/destructor-counting collaborator the spec uses to observe
lifecycle events.

Operations that can throw (`Emplace`, hence `Get` and `Reset`) return
`Except (SingletonState α) (... × SingletonState α)`: the `error` case
carries the state left behind by the propagating exception.

Concurrency: `std::call_once` guarantees that of all concurrent callers
in one epoch exactly one executes the action, the others block until it
finishes, and every caller's subsequent read of `g_instance` is ordered
after the completed action.  Under that contract a run of N concurrent
first `Get` calls is observationally equivalent to executing the N calls
sequentially in their arrival order, which is how the concurrent claim is
rendered below (quantifying over all arrival orders).
-/

namespace TestableSingleton

/-- Model of the managed type `T`: which constructor-argument values make
the constructor of `T` throw. -/
structure TypeModel (α : Type) where
  ctorFails : α → Bool

/-- `nullptr` as a pointer value. -/
def NULLPTR : Nat := 0

/-- `LOCAL_INSTANCE_ID = reinterpret_cast<T*>(1)`: the sentinel pointer
value marking that the local buffer holds the live instance. -/
def LOCAL_INSTANCE_ID : Nat := 1

/-- The address of the static buffer `GetBuffer()` returns.  It is the
address of a real static object, hence distinct from `nullptr` (0) and
from the sentinel value 1. -/
def bufferAddr : Nat := 2

/-- The per-type-parameter global state of `Singleton<T>`:
`m_pExtern` and the buffer from `Instance`/`GetBuffer`, the completion
state of the `once_flag` inside `OnceFlag`, plus ghost instrumentation. -/
structure SingletonState (α : Type) where
  /-- `Instance::m_pExtern`: `0` if empty, `LOCAL_INSTANCE_ID` if the
  internal buffer is constructed, the external pointer otherwise. -/
  mPExtern : Nat
  /-- Whether the current `std::once_flag` inside `OnceFlag` has been
  completed (its action ran to completion in this epoch). -/
  onceDone : Bool
  /-- Contents of the static buffer: `some a` when a `T` constructed with
  argument `a` is live in it, `none` when no constructed `T` is live. -/
  bufferVal : Option α
  /-- Ghost: number of constructor invocations of `T` performed by the
  holder (placement-`new` in `Emplace`), including throwing ones. -/
  ctorCount : Nat
  /-- Ghost: number of destructor invocations performed by the holder. -/
  dtorCount : Nat
  /-- Ghost: the address of every object the holder has destroyed, most
  recent first. -/
  destroyedAddrs : List Nat
  deriving Repr, DecidableEq

/-- The state at process start: `m_pExtern = nullptr` (member initializer),
a fresh `once_flag` (constructed by `OnceFlag::OnceFlag`), an
unconstructed buffer. -/
def initState (α : Type) : SingletonState α :=
  { mPExtern := NULLPTR, onceDone := false, bufferVal := none,
    ctorCount := 0, dtorCount := 0, destroyedAddrs := [] }

/-- `Instance::~Instance()`: destroys the locally-initialized instance
(`GetBuffer().~T()`) iff `m_pExtern == LOCAL_INSTANCE_ID`; injected ones
are ignored (no ownership).  `m_pExtern` itself is not modified. -/
def destroyInstance (s : SingletonState α) : SingletonState α :=
  if s.mPExtern = LOCAL_INSTANCE_ID then
    { s with bufferVal := none, dtorCount := s.dtorCount + 1,
             destroyedAddrs := bufferAddr :: s.destroyedAddrs }
  else s

/-- `Instance::operator T*()`: `m_pExtern == LOCAL_INSTANCE_ID ?
&GetBuffer() : m_pExtern`. -/
def instancePtr (s : SingletonState α) : Nat :=
  if s.mPExtern = LOCAL_INSTANCE_ID then bufferAddr else s.mPExtern

/-- `Instance::Emplace(args...)`: `this->~Instance();` then
`new (&GetBuffer()) T(args...)` inside a `try`; on success
`m_pExtern = LOCAL_INSTANCE_ID`, on a constructor exception the `catch`
sets `m_pExtern = nullptr` and rethrows. -/
def emplace (m : TypeModel α) (arg : α) (s : SingletonState α) :
    Except (SingletonState α) (SingletonState α) :=
  let s1 := destroyInstance s
  if m.ctorFails arg then
    .error { s1 with mPExtern := NULLPTR, ctorCount := s1.ctorCount + 1 }
  else
    .ok { s1 with mPExtern := LOCAL_INSTANCE_ID, bufferVal := some arg,
                  ctorCount := s1.ctorCount + 1 }

/-- `Instance::SetExtern(ptr)`: `this->~Instance(); m_pExtern = ptr;`. -/
def setExtern (p : Nat) (s : SingletonState α) : SingletonState α :=
  let s1 := destroyInstance s
  { s1 with mPExtern := p }

/-- `std::call_once(g_onceFlag, action)`: if the flag's epoch is already
completed, do nothing; otherwise run `action`, and mark the epoch
completed only if `action` returned (an exception leaves the flag
untouched and propagates). -/
def callOnce (action : SingletonState α → Except (SingletonState α) (SingletonState α))
    (s : SingletonState α) : Except (SingletonState α) (SingletonState α) :=
  if s.onceDone then .ok s
  else
    match action s with
    | .ok s' => .ok { s' with onceDone := true }
    | .error s' => .error s'

/-- `OnceFlag::Reset()`: destroys and re-constructs the `once_flag`,
returning it to the not-completed state. -/
def onceFlagReset (s : SingletonState α) : SingletonState α :=
  { s with onceDone := false }

/-- `Singleton<T>::Get(args...)`:
`std::call_once(g_onceFlag, &EmplaceHelper<Args...>, args...); return
*static_cast<T*>(g_instance);` — on success the returned value is the
address of the reference `*static_cast<T*>(g_instance)`. -/
def Get (m : TypeModel α) (arg : α) (s : SingletonState α) :
    Except (SingletonState α) (Nat × SingletonState α) :=
  match callOnce (emplace m arg) s with
  | .ok s' => .ok (instancePtr s', s')
  | .error s' => .error s'

/-- `Singleton<T>::TryGet()`: `return g_instance;` — reads the holder via
`operator T*` and performs no write at all (the returned state is the
input state, untouched). -/
def TryGet (s : SingletonState α) : Nat × SingletonState α :=
  (instancePtr s, s)

/-- `Singleton<T>::Reset(args...)`: `g_onceFlag.Reset(); return
Get(std::forward<Args>(args)...);`. -/
def Reset (m : TypeModel α) (arg : α) (s : SingletonState α) :
    Except (SingletonState α) (Nat × SingletonState α) :=
  Get m arg (onceFlagReset s)

/-- `Singleton<T>::Inject(object)`: if `object` is non-null,
`std::call_once(g_onceFlag, []() {})` (marks the epoch completed);
otherwise `g_onceFlag.Reset()`; then `g_instance.SetExtern(object)`. -/
def Inject (p : Nat) (s : SingletonState α) : SingletonState α :=
  let s1 := if p ≠ NULLPTR then { s with onceDone := true } else onceFlagReset s
  setExtern p s1

/-- One operation of the public/test surface of `Singleton<T>`. -/
inductive Op (α : Type) where
  | get (arg : α)
  | tryGet
  | reset (arg : α)
  | inject (p : Nat)
  deriving Repr, DecidableEq

/-- The state after one operation; for the throwing operations the state
left by the propagating exception is taken in the `error` case. -/
def runOp (m : TypeModel α) (op : Op α) (s : SingletonState α) : SingletonState α :=
  match op with
  | .get arg =>
    match Get m arg s with
    | .ok (_, s') => s'
    | .error s' => s'
  | .tryGet => (TryGet s).2
  | .reset arg =>
    match Reset m arg s with
    | .ok (_, s') => s'
    | .error s' => s'
  | .inject p => Inject p s

/-- The state after a sequence of operations, applied left to right. -/
def runOps (m : TypeModel α) (ops : List (Op α)) (s : SingletonState α) :
    SingletonState α :=
  ops.foldl (fun s op => runOp m op s) s

/-- Run a sequence of `Get` calls in arrival order, collecting each
call's returned address (`none` for a call that exited by exception). -/
def runGets (m : TypeModel α) (args : List α) (s : SingletonState α) :
    List (Option Nat) × SingletonState α :=
  match args with
  | [] => ([], s)
  | a :: rest =>
    match Get m a s with
    | .ok (p, s') =>
      let (ps, sEnd) := runGets m rest s'
      (some p :: ps, sEnd)
    | .error s' =>
      let (ps, sEnd) := runGets m rest s'
      (none :: ps, sEnd)

/-! ## Helper predicates and lemmas -/

/-- The holder's representation invariant: the tag pointer `m_pExtern`
classifies the state as `Empty` (null, no live buffer object), `Local`
(sentinel, live object in the buffer) or `External` (any other pointer,
no live buffer object). -/
def HolderInv (s : SingletonState α) : Prop :=
  (s.mPExtern = NULLPTR ∧ s.bufferVal = none) ∨
  (s.mPExtern = LOCAL_INSTANCE_ID ∧ s.bufferVal.isSome = true) ∨
  (s.mPExtern ≠ NULLPTR ∧ s.mPExtern ≠ LOCAL_INSTANCE_ID ∧ s.bufferVal = none)

instance [DecidableEq α] (s : SingletonState α) : Decidable (HolderInv s) := by
  unfold HolderInv; infer_instance

/-- The three-mode configuration of the holder: `Empty` (tag null, no
live buffer object, `TryGet` returns null), `Local` (tag is the
sentinel, a live object in the buffer, `TryGet` returns the buffer
address) or `External` (tag is the injected pointer, no live buffer
object, `TryGet` returns the injected pointer). -/
def ModeOk (s : SingletonState α) : Prop :=
  (s.mPExtern = NULLPTR ∧ s.bufferVal = none ∧ (TryGet s).1 = NULLPTR) ∨
  (s.mPExtern = LOCAL_INSTANCE_ID ∧ s.bufferVal.isSome = true ∧
    (TryGet s).1 = bufferAddr) ∨
  (s.mPExtern ≠ NULLPTR ∧ s.mPExtern ≠ LOCAL_INSTANCE_ID ∧
    s.bufferVal = none ∧ (TryGet s).1 = s.mPExtern)

/-- A concrete managed type for instantiating the generic theorems at
explicit inputs: constructor arguments are naturals, and constructing
with argument `0` throws while any other argument succeeds. -/
def natModel : TypeModel Nat :=
  { ctorFails := fun a => a == 0 }

/-- The concrete state after `Get(5)` from the initial state under
`natModel`: the buffer holds an object constructed from argument `5`,
the tag is the sentinel and the epoch is completed. -/
def wGetState : SingletonState Nat :=
  { mPExtern := LOCAL_INSTANCE_ID, onceDone := true, bufferVal := some 5,
    ctorCount := 1, dtorCount := 0, destroyedAddrs := [] }

theorem initState_holderInv (α : Type) : HolderInv (initState α) := by
  left; exact ⟨rfl, rfl⟩

theorem destroyInstance_bufferVal (s : SingletonState α) (h : HolderInv s) :
    (destroyInstance s).bufferVal = none := by
  unfold destroyInstance
  rcases h with ⟨_, hb⟩ | ⟨hm, _⟩ | ⟨_, _, hb⟩ <;> split <;> simp_all

theorem destroyInstance_mPExtern (s : SingletonState α) :
    (destroyInstance s).mPExtern = s.mPExtern := by
  unfold destroyInstance; split <;> rfl

theorem destroyInstance_onceDone (s : SingletonState α) :
    (destroyInstance s).onceDone = s.onceDone := by
  unfold destroyInstance; split <;> rfl

theorem destroyInstance_ctorCount (s : SingletonState α) :
    (destroyInstance s).ctorCount = s.ctorCount := by
  unfold destroyInstance; split <;> rfl

theorem Get_of_onceDone (m : TypeModel α) (a : α) (s : SingletonState α)
    (h : s.onceDone = true) : Get m a s = .ok (instancePtr s, s) := by
  simp [Get, callOnce, h]

theorem Get_ok_onceDone (m : TypeModel α) (a : α) (p : Nat)
    (s s' : SingletonState α) (h : Get m a s = .ok (p, s')) :
    s'.onceDone = true := by
  unfold Get callOnce at h
  by_cases hd : s.onceDone
  · simp [hd] at h; rw [← h.2, hd]
  · simp [hd] at h
    unfold emplace at h
    by_cases hf : m.ctorFails a <;> simp [hf] at h
    rw [← h.2]

theorem Get_ok_ptr (m : TypeModel α) (a : α) (p : Nat)
    (s s' : SingletonState α) (h : Get m a s = .ok (p, s')) :
    p = instancePtr s' := by
  unfold Get at h
  rcases hc : callOnce (emplace m a) s with s1 | s1 <;> rw [hc] at h <;>
    simp at h
  obtain ⟨h1, h2⟩ := h
  subst h2
  exact h1.symm

theorem runGets_of_onceDone (m : TypeModel α) (args : List α)
    (s : SingletonState α) (h : s.onceDone = true) :
    runGets m args s = (args.map fun _ => some (instancePtr s), s) := by
  induction args with
  | nil => rfl
  | cons a rest ih => simp [runGets, Get_of_onceDone m a s h, ih]

theorem Get_run_ok (m : TypeModel α) (a : α) (s : SingletonState α)
    (hd : s.onceDone = false) (hf : m.ctorFails a = false) :
    ∃ s', Get m a s = .ok (bufferAddr, s') ∧
      s'.onceDone = true ∧ s'.mPExtern = LOCAL_INSTANCE_ID ∧
      s'.bufferVal = some a ∧ s'.ctorCount = s.ctorCount + 1 ∧
      s'.dtorCount = (destroyInstance s).dtorCount ∧
      s'.destroyedAddrs = (destroyInstance s).destroyedAddrs := by
  refine ⟨{ mPExtern := LOCAL_INSTANCE_ID, onceDone := true,
            bufferVal := some a,
            ctorCount := (destroyInstance s).ctorCount + 1,
            dtorCount := (destroyInstance s).dtorCount,
            destroyedAddrs := (destroyInstance s).destroyedAddrs },
         ?_, rfl, rfl, rfl, ?_, rfl, rfl⟩
  · simp [Get, callOnce, emplace, hd, hf, instancePtr, LOCAL_INSTANCE_ID]
  · simp [destroyInstance_ctorCount]

theorem Get_run_fail (m : TypeModel α) (a : α) (s : SingletonState α)
    (hd : s.onceDone = false) (hf : m.ctorFails a = true) :
    ∃ s', Get m a s = .error s' ∧
      s'.mPExtern = NULLPTR ∧ s'.onceDone = false ∧
      s'.bufferVal = (destroyInstance s).bufferVal ∧
      s'.ctorCount = s.ctorCount + 1 ∧
      s'.dtorCount = (destroyInstance s).dtorCount ∧
      s'.destroyedAddrs = (destroyInstance s).destroyedAddrs := by
  refine ⟨{ mPExtern := NULLPTR, onceDone := (destroyInstance s).onceDone,
            bufferVal := (destroyInstance s).bufferVal,
            ctorCount := (destroyInstance s).ctorCount + 1,
            dtorCount := (destroyInstance s).dtorCount,
            destroyedAddrs := (destroyInstance s).destroyedAddrs },
         ?_, rfl, ?_, rfl, ?_, rfl, rfl⟩
  · simp [Get, callOnce, emplace, hd, hf]
  · rw [destroyInstance_onceDone]; exact hd
  · simp [destroyInstance_ctorCount]

theorem destroyInstance_mem (s : SingletonState α) (a : Nat)
    (ha : a ∈ (destroyInstance s).destroyedAddrs) :
    a = bufferAddr ∨ a ∈ s.destroyedAddrs := by
  unfold destroyInstance at ha
  split at ha <;> simp_all

theorem runOp_destroyedAddrs (m : TypeModel α) (op : Op α)
    (s : SingletonState α) (a : Nat)
    (ha : a ∈ (runOp m op s).destroyedAddrs) :
    a = bufferAddr ∨ a ∈ s.destroyedAddrs := by
  cases op with
  | tryGet => exact Or.inr ha
  | inject p =>
    simp only [runOp, Inject, setExtern] at ha
    split at ha
    · exact destroyInstance_mem { s with onceDone := true } a ha
    · exact destroyInstance_mem (onceFlagReset s) a ha
  | get arg =>
    by_cases hd : s.onceDone
    · rw [runOp, Get_of_onceDone m arg s hd] at ha
      exact Or.inr ha
    · rw [Bool.not_eq_true] at hd
      by_cases hf : m.ctorFails arg
      · obtain ⟨s', hget, _, _, _, _, _, hda⟩ := Get_run_fail m arg s hd hf
        rw [runOp, hget] at ha
        rw [hda] at ha
        exact destroyInstance_mem _ a ha
      · rw [Bool.not_eq_true] at hf
        obtain ⟨s', hget, _, _, _, _, _, hda⟩ := Get_run_ok m arg s hd hf
        rw [runOp, hget] at ha
        rw [hda] at ha
        exact destroyInstance_mem _ a ha
  | reset arg =>
    by_cases hf : m.ctorFails arg
    · obtain ⟨s', hget, _, _, _, _, _, hda⟩ :=
        Get_run_fail m arg (onceFlagReset s) rfl hf
      rw [runOp, Reset, hget] at ha
      rw [hda] at ha
      exact destroyInstance_mem (onceFlagReset s) a ha
    · rw [Bool.not_eq_true] at hf
      obtain ⟨s', hget, _, _, _, _, _, hda⟩ :=
        Get_run_ok m arg (onceFlagReset s) rfl hf
      rw [runOp, Reset, hget] at ha
      rw [hda] at ha
      exact destroyInstance_mem (onceFlagReset s) a ha

theorem runOps_destroyedAddrs (m : TypeModel α) (ops : List (Op α))
    (s : SingletonState α) (a : Nat) (hb : a ≠ bufferAddr)
    (ha : a ∉ s.destroyedAddrs) :
    a ∉ (runOps m ops s).destroyedAddrs := by
  induction ops generalizing s with
  | nil => exact ha
  | cons op rest ih =>
    show a ∉ (runOps m rest (runOp m op s)).destroyedAddrs
    apply ih
    intro hmem
    rcases runOp_destroyedAddrs m op s a hmem with h | h
    · exact hb h
    · exact ha h

theorem holderInv_onceDone (s : SingletonState α) (b : Bool)
    (h : HolderInv s) : HolderInv { s with onceDone := b } := h

theorem runOp_inv (m : TypeModel α) (op : Op α) (s : SingletonState α)
    (hv : ∀ p, op = Op.inject p → p ≠ LOCAL_INSTANCE_ID)
    (h : HolderInv s) : HolderInv (runOp m op s) := by
  cases op with
  | tryGet => exact h
  | get arg =>
    by_cases hd : s.onceDone
    · rw [runOp, Get_of_onceDone m arg s hd]
      exact h
    · rw [Bool.not_eq_true] at hd
      by_cases hf : m.ctorFails arg
      · obtain ⟨s', hget, hm, _, hbv, _, _, _⟩ := Get_run_fail m arg s hd hf
        rw [runOp, hget]
        left
        exact ⟨hm, by rw [hbv]; exact destroyInstance_bufferVal s h⟩
      · rw [Bool.not_eq_true] at hf
        obtain ⟨s', hget, _, hm, hbv, _, _, _⟩ := Get_run_ok m arg s hd hf
        rw [runOp, hget]
        right; left
        exact ⟨hm, by rw [hbv]; rfl⟩
  | reset arg =>
    by_cases hf : m.ctorFails arg
    · obtain ⟨s', hget, hm, _, hbv, _, _, _⟩ :=
        Get_run_fail m arg (onceFlagReset s) rfl hf
      rw [runOp, Reset, hget]
      left
      refine ⟨hm, ?_⟩
      rw [hbv]
      exact destroyInstance_bufferVal _ (holderInv_onceDone s false h)
    · rw [Bool.not_eq_true] at hf
      obtain ⟨s', hget, _, hm, hbv, _, _, _⟩ :=
        Get_run_ok m arg (onceFlagReset s) rfl hf
      rw [runOp, Reset, hget]
      right; left
      exact ⟨hm, by rw [hbv]; rfl⟩
  | inject p =>
    have hp1 : p ≠ LOCAL_INSTANCE_ID := hv p rfl
    have hbv : (runOp m (Op.inject p) s).bufferVal = none := by
      show (destroyInstance
        (if p ≠ NULLPTR then { s with onceDone := true }
         else onceFlagReset s)).bufferVal = none
      split
      · exact destroyInstance_bufferVal _ (holderInv_onceDone s true h)
      · exact destroyInstance_bufferVal _ (holderInv_onceDone s false h)
    have hm : (runOp m (Op.inject p) s).mPExtern = p := rfl
    by_cases hp0 : p = NULLPTR
    · left; exact ⟨by rw [hm, hp0], hbv⟩
    · right; right; exact ⟨by rw [hm]; exact hp0, by rw [hm]; exact hp1, hbv⟩

theorem runOps_inv (m : TypeModel α) (ops : List (Op α)) (s : SingletonState α)
    (hv : ∀ p, Op.inject p ∈ ops → p ≠ LOCAL_INSTANCE_ID)
    (h : HolderInv s) : HolderInv (runOps m ops s) := by
  induction ops generalizing s with
  | nil => exact h
  | cons op rest ih =>
    show HolderInv (runOps m rest (runOp m op s))
    apply ih
    · exact fun p hp => hv p (List.mem_cons_of_mem _ hp)
    · exact runOp_inv m op s (fun p hop => hv p (hop ▸ List.mem_cons_self _ _)) h

/-! ## Claims -/

/-- C1: for every type parameter, when N threads concurrently make the
first `Get` calls of an epoch, exactly one constructor invocation of `T`
occurs and every one of the N calls returns a reference to the same
address (the buffer address).  `std::call_once` serializes the epoch's
construction (one winner runs it, the others block until it completes and
then read the holder), so the concurrent run is rendered as the N calls
executed sequentially in an arbitrary arrival order `a :: rest`; the
winner's constructor is assumed not to throw. -/
theorem C1_concurrent_first_get (α : Type) (m : TypeModel α) (a : α)
    (rest : List α) (hok : m.ctorFails a = false) :
    (∀ q ∈ (runGets m (a :: rest) (initState α)).1, q = some bufferAddr) ∧
    (runGets m (a :: rest) (initState α)).2.ctorCount = 1 := by
  obtain ⟨s', hget, hd, hm, _, hc, _, _⟩ :=
    Get_run_ok m a (initState α) rfl hok
  have hip : instancePtr s' = bufferAddr := by simp [instancePtr, hm]
  have hrun : runGets m (a :: rest) (initState α) =
      (some bufferAddr :: (rest.map fun _ => some (instancePtr s')), s') := by
    simp [runGets, hget, runGets_of_onceDone m rest s' hd]
  rw [hrun]
  constructor
  · intro q hq
    rcases List.mem_cons.mp hq with h | h
    · exact h
    · obtain ⟨x, _, hx⟩ := List.mem_map.mp h
      rw [← hx, hip]
  · exact hc

/-- Witness for C1 at a concrete input: three concurrent first `Get`
calls with arguments 5, 7, 9. -/
theorem C1_concurrent_first_get_witness :
    (∀ q ∈ (runGets natModel (5 :: [7, 9]) (initState Nat)).1,
      q = some bufferAddr) ∧
    (runGets natModel (5 :: [7, 9]) (initState Nat)).2.ctorCount = 1 :=
  C1_concurrent_first_get Nat natModel 5 [7, 9] (by decide)

/-- C2: if the managed type's constructor throws during the construction
triggered by `Get` (the epoch is not completed, so `Get` runs `Emplace`),
then `Get` propagates the error and leaves `m_pExtern = nullptr`
(`Empty`): `TryGet` returns null, no live object remains in the buffer,
the once-flag's epoch is left not completed, and a later `Get` retries
construction from scratch (and succeeds if the retry's constructor does
not throw, with one further constructor invocation). -/
theorem C2_ctor_failure_rollback (m : TypeModel α) (arg retryArg : α)
    (s : SingletonState α) (hinv : HolderInv s) (hepoch : s.onceDone = false)
    (hfail : m.ctorFails arg = true) (hretry : m.ctorFails retryArg = false) :
    ∃ sErr, Get m arg s = .error sErr ∧
      sErr.mPExtern = NULLPTR ∧ (TryGet sErr).1 = NULLPTR ∧
      sErr.bufferVal = none ∧ sErr.onceDone = false ∧
      ∃ s2, Get m retryArg sErr = .ok (bufferAddr, s2) ∧
        s2.ctorCount = sErr.ctorCount + 1 ∧ s2.bufferVal = some retryArg := by
  obtain ⟨sErr, hget, hm, hod, hbv, _, _, _⟩ :=
    Get_run_fail m arg s hepoch hfail
  refine ⟨sErr, hget, hm, ?_, ?_, hod, ?_⟩
  · simp [TryGet, instancePtr, hm, NULLPTR, LOCAL_INSTANCE_ID]
  · rw [hbv]
    exact destroyInstance_bufferVal s hinv
  · obtain ⟨s2, hget2, _, _, hbv2, hc2, _, _⟩ :=
      Get_run_ok m retryArg sErr hod hretry
    exact ⟨s2, hget2, hc2, hbv2⟩

/-- Witness for C2 at a concrete input: from the initial state, `Get(0)`
throws (argument 0 makes `natModel`'s constructor throw) and `Get(5)`
retries successfully. -/
theorem C2_ctor_failure_rollback_witness :
    ∃ sErr, Get natModel 0 (initState Nat) = .error sErr ∧
      sErr.mPExtern = NULLPTR ∧ (TryGet sErr).1 = NULLPTR ∧
      sErr.bufferVal = none ∧ sErr.onceDone = false ∧
      ∃ s2, Get natModel 5 sErr = .ok (bufferAddr, s2) ∧
        s2.ctorCount = sErr.ctorCount + 1 ∧ s2.bufferVal = some 5 :=
  C2_ctor_failure_rollback natModel 0 5 (initState Nat)
    (by decide) rfl (by decide) (by decide)

/-- C3: for every type parameter, `TryGet()` in the initial state (before
any `Get` or `Inject`) returns the absent value (null), and `TryGet`
never triggers construction in any state: its body is a single read of
`g_instance`, so the state it leaves behind is the input state itself
(in particular no constructor invocation is added). -/
theorem C3_tryget_initial_absent (α : Type) :
    (TryGet (initState α)).1 = NULLPTR ∧
    ∀ s : SingletonState α, (TryGet s).2 = s := by
  exact ⟨rfl, fun s => rfl⟩

/-- C4: calling `Get` twice within the same epoch (the second call made
in the state a successful `Get` left behind), with any possibly
different arguments, returns references to the identical address, and
the second call's arguments are not used to reconstruct the instance:
the second call returns the very same state (no constructor invocation,
no state change at all). -/
theorem C4_second_get_same_address (m : TypeModel α) (x y : α)
    (s s1 : SingletonState α) (p : Nat)
    (h : Get m x s = .ok (p, s1)) :
    Get m y s1 = .ok (p, s1) := by
  have hd := Get_ok_onceDone m x p s s1 h
  have hp := Get_ok_ptr m x p s s1 h
  rw [Get_of_onceDone m y s1 hd, hp]

/-- Witness for C4 at a concrete input: `Get(5)` from the initial state
yields `wGetState`; `Get(7)` then returns the same address and state. -/
theorem C4_second_get_same_address_witness :
    Get natModel 7 wGetState = .ok (bufferAddr, wGetState) :=
  C4_second_get_same_address natModel 5 7 (initState Nat) wGetState
    bufferAddr rfl

/-- C5: after a successful `Get(args)`, `TryGet()` returns a pointer
whose address equals the address of the reference `Get` returned. -/
theorem C5_tryget_after_get (m : TypeModel α) (arg : α)
    (s s' : SingletonState α) (p : Nat)
    (h : Get m arg s = .ok (p, s')) :
    (TryGet s').1 = p :=
  (Get_ok_ptr m arg p s s' h).symm

/-- Witness for C5 at a concrete input: after `Get(5)` from the initial
state returned the buffer address, `TryGet` returns the same address. -/
theorem C5_tryget_after_get_witness : (TryGet wGetState).1 = bufferAddr :=
  C5_tryget_after_get natModel 5 (initState Nat) wGetState bufferAddr rfl

/-- C6: when the holder is in `Local` mode (`m_pExtern` is the sentinel)
before the call, `Reset(args)` returns a reference whose address equals
the address returned by the prior `Get`/`Reset` on the same type
parameter: that prior address is the buffer address (what `TryGet`
reports in `Local` mode), and the reset rebuilds in place and returns
the buffer address again. -/
theorem C6_reset_local_stable_address (m : TypeModel α) (arg : α)
    (s : SingletonState α) (hloc : s.mPExtern = LOCAL_INSTANCE_ID)
    (hok : m.ctorFails arg = false) :
    (TryGet s).1 = bufferAddr ∧
    ∃ s', Reset m arg s = .ok (bufferAddr, s') ∧
      s'.mPExtern = LOCAL_INSTANCE_ID := by
  constructor
  · simp [TryGet, instancePtr, hloc]
  · obtain ⟨s', hget, _, hm, _, _, _, _⟩ :=
      Get_run_ok m arg (onceFlagReset s) rfl hok
    exact ⟨s', hget, hm⟩

/-- Witness for C6 at a concrete input: resetting with argument 7 from
the `Local`-mode state left by `Get(5)` returns the buffer address. -/
theorem C6_reset_local_stable_address_witness :
    (TryGet wGetState).1 = bufferAddr ∧
    ∃ s', Reset natModel 7 wGetState = .ok (bufferAddr, s') ∧
      s'.mPExtern = LOCAL_INSTANCE_ID :=
  C6_reset_local_stable_address natModel 7 wGetState rfl (by decide)

/-- C7: `Reset` on a holder with a live `Local` instance destroys that
instance exactly once before constructing the new one: after the
destruction step that `Emplace` performs first (`this->~Instance()` on
the state with the reopened once-flag), the destructor count has
incremented by exactly 1 while the constructor count is unchanged, and
the final state has both counts incremented by exactly 1. -/
theorem C7_reset_destroy_before_construct (m : TypeModel α) (arg : α)
    (s : SingletonState α) (hloc : s.mPExtern = LOCAL_INSTANCE_ID)
    (hok : m.ctorFails arg = false) :
    (destroyInstance (onceFlagReset s)).dtorCount = s.dtorCount + 1 ∧
    (destroyInstance (onceFlagReset s)).ctorCount = s.ctorCount ∧
    ∃ s', Reset m arg s = .ok (bufferAddr, s') ∧
      s'.dtorCount = s.dtorCount + 1 ∧ s'.ctorCount = s.ctorCount + 1 := by
  have hd1 : (destroyInstance (onceFlagReset s)).dtorCount = s.dtorCount + 1 := by
    simp [destroyInstance, onceFlagReset, hloc]
  refine ⟨hd1, by rw [destroyInstance_ctorCount]; rfl, ?_⟩
  obtain ⟨s', hget, _, _, _, hc, hdt, _⟩ :=
    Get_run_ok m arg (onceFlagReset s) rfl hok
  exact ⟨s', hget, by rw [hdt, hd1], hc⟩

/-- Witness for C7 at a concrete input: resetting with argument 7 from
the `Local`-mode state left by `Get(5)` destroys once, then constructs
once. -/
theorem C7_reset_destroy_before_construct_witness :
    (destroyInstance (onceFlagReset wGetState)).dtorCount =
      wGetState.dtorCount + 1 ∧
    (destroyInstance (onceFlagReset wGetState)).ctorCount =
      wGetState.ctorCount ∧
    ∃ s', Reset natModel 7 wGetState = .ok (bufferAddr, s') ∧
      s'.dtorCount = wGetState.dtorCount + 1 ∧
      s'.ctorCount = wGetState.ctorCount + 1 :=
  C7_reset_destroy_before_construct natModel 7 wGetState rfl (by decide)

/-- C8: after `Inject(ptr)` with a non-null valid pointer (not the
sentinel value, not the holder's own buffer, not an address the holder
already destroyed), every subsequent `Get` returns a reference whose
address equals `ptr` (with the state unchanged, so this holds for all
subsequent `Get` calls); a previously live `Local` instance is destroyed
by the injection exactly once (the destructor count increments by 1 iff
the holder was in `Local` mode); and `ptr` is never destroyed by the
holder under any further sequence of operations (in particular any mix
of `Reset` and `Inject` calls). -/
theorem C8_inject_nonnull (m : TypeModel α) (s : SingletonState α)
    (p : Nat) (x : α) (ops : List (Op α))
    (hp0 : p ≠ NULLPTR) (hp1 : p ≠ LOCAL_INSTANCE_ID) (hpb : p ≠ bufferAddr)
    (hfresh : p ∉ s.destroyedAddrs) :
    Get m x (Inject p s) = .ok (p, Inject p s) ∧
    (Inject p s).dtorCount =
      (if s.mPExtern = LOCAL_INSTANCE_ID then s.dtorCount + 1
       else s.dtorCount) ∧
    p ∉ (runOps m ops (Inject p s)).destroyedAddrs := by
  have hinj : Inject p s = setExtern p { s with onceDone := true } := by
    simp [Inject, hp0]
  have hod : (Inject p s).onceDone = true := by
    rw [hinj]
    show (destroyInstance { s with onceDone := true }).onceDone = true
    rw [destroyInstance_onceDone]
  have hm : (Inject p s).mPExtern = p := rfl
  refine ⟨?_, ?_, ?_⟩
  · rw [Get_of_onceDone m x (Inject p s) hod]
    have : instancePtr (Inject p s) = p := by
      simp [instancePtr, hm, hp1]
    rw [this]
  · rw [hinj]
    show (destroyInstance { s with onceDone := true }).dtorCount = _
    unfold destroyInstance
    split <;> simp_all
  · apply runOps_destroyedAddrs m ops (Inject p s) p hpb
    intro hmem
    rw [hinj] at hmem
    have hmem2 : p ∈ (destroyInstance { s with onceDone := true }).destroyedAddrs :=
      hmem
    rcases destroyInstance_mem { s with onceDone := true } p hmem2 with h | h
    · exact hpb h
    · exact hfresh h

/-- Witness for C8 at a concrete input: injecting address 100 into the
`Local`-mode state left by `Get(5)`, then checking `Get(7)` and a
further sequence of reset/inject/get operations. -/
theorem C8_inject_nonnull_witness :
    Get natModel 7 (Inject 100 wGetState) = .ok (100, Inject 100 wGetState) ∧
    (Inject 100 wGetState).dtorCount =
      (if wGetState.mPExtern = LOCAL_INSTANCE_ID then wGetState.dtorCount + 1
       else wGetState.dtorCount) ∧
    100 ∉ (runOps natModel
      [Op.reset 3, Op.inject 200, Op.get 4, Op.inject 0, Op.get 6]
      (Inject 100 wGetState)).destroyedAddrs :=
  C8_inject_nonnull natModel wGetState 100 7
    [Op.reset 3, Op.inject 200, Op.get 4, Op.inject 0, Op.get 6]
    (by decide) (by decide) (by decide) (by decide)

/-- C9: `Inject(null)` returns the singleton to the `Empty` state (tag
null, `TryGet` absent) and reopens the gate's epoch (the once-flag is
left not completed), so the next `Get` triggers a fresh construction
using that `Get`'s arguments (one further constructor invocation, built
from the new argument). -/
theorem C9_inject_null_reopens (m : TypeModel α) (s : SingletonState α)
    (arg : α) (hok : m.ctorFails arg = false) :
    (Inject NULLPTR s).mPExtern = NULLPTR ∧
    (TryGet (Inject NULLPTR s)).1 = NULLPTR ∧
    (Inject NULLPTR s).onceDone = false ∧
    ∃ s', Get m arg (Inject NULLPTR s) = .ok (bufferAddr, s') ∧
      s'.bufferVal = some arg ∧
      s'.ctorCount = (Inject NULLPTR s).ctorCount + 1 := by
  have hod : (Inject NULLPTR s).onceDone = false := by
    show (destroyInstance (if NULLPTR ≠ NULLPTR then _ else onceFlagReset s)).onceDone = false
    rw [if_neg (by simp), destroyInstance_onceDone]
    rfl
  refine ⟨rfl, rfl, hod, ?_⟩
  obtain ⟨s', hget, _, _, hbv, hc, _, _⟩ :=
    Get_run_ok m arg (Inject NULLPTR s) hod hok
  exact ⟨s', hget, hbv, hc⟩

/-- Witness for C9 at a concrete input: `Inject(null)` on the
`Local`-mode state left by `Get(5)`, then `Get(9)` constructs afresh
from argument 9. -/
theorem C9_inject_null_reopens_witness :
    (Inject NULLPTR wGetState).mPExtern = NULLPTR ∧
    (TryGet (Inject NULLPTR wGetState)).1 = NULLPTR ∧
    (Inject NULLPTR wGetState).onceDone = false ∧
    ∃ s', Get natModel 9 (Inject NULLPTR wGetState) = .ok (bufferAddr, s') ∧
      s'.bufferVal = some 9 ∧
      s'.ctorCount = (Inject NULLPTR wGetState).ctorCount + 1 :=
  C9_inject_null_reopens natModel wGetState 9 (by decide)

/-- C10: every state reachable from the initial state by any sequence of
`Get`, `TryGet`, `Reset` and `Inject` operations (where every injected
non-null pointer is a genuine object address, i.e. not the sentinel
value `reinterpret_cast<T*>(1)`) is in exactly one of the three modes
encoded in the tag pointer: `Empty` (tag null, no live buffer object,
`TryGet` returns null), `Local` (tag is the sentinel, a live object in
the internal buffer, `TryGet` returns its address), or `External` (tag
is the injected pointer, no live buffer object, `TryGet` returns it);
no operation leaves the holder in any other configuration. -/
theorem C10_mode_invariant (α : Type) (m : TypeModel α) (ops : List (Op α))
    (hv : ∀ p, Op.inject p ∈ ops → p ≠ LOCAL_INSTANCE_ID) :
    ModeOk (runOps m ops (initState α)) := by
  have hinv : HolderInv (runOps m ops (initState α)) :=
    runOps_inv m ops (initState α) hv (initState_holderInv α)
  rcases hinv with ⟨hm, hb⟩ | ⟨hm, hb⟩ | ⟨hm0, hm1, hb⟩
  · left
    exact ⟨hm, hb, by simp [TryGet, instancePtr, hm, NULLPTR, LOCAL_INSTANCE_ID]⟩
  · right; left
    exact ⟨hm, hb, by simp [TryGet, instancePtr, hm]⟩
  · right; right
    exact ⟨hm0, hm1, hb, by simp [TryGet, instancePtr, hm1]⟩

/-- Witness for C10 at a concrete input: a sequence exercising all four
operations, including a failed construction (`Get(0)` throws), an
injection and a clearing injection. -/
theorem C10_mode_invariant_witness :
    ModeOk (runOps natModel
      [Op.get 0, Op.get 5, Op.tryGet, Op.inject 100, Op.inject 0,
       Op.reset 3, Op.inject 0]
      (initState Nat)) :=
  C10_mode_invariant Nat natModel
    [Op.get 0, Op.get 5, Op.tryGet, Op.inject 100, Op.inject 0,
     Op.reset 3, Op.inject 0]
    (by
      intro p hp
      simp only [List.mem_cons, List.not_mem_nil, or_false] at hp
      rcases hp with h | h | h | h | h | h | h <;>
        simp_all [LOCAL_INSTANCE_ID])

end TestableSingleton
